import Mathlib

/-!
Shallow embedding of `src/main.py` (VaretsaK/Bank-System).

The Python program defines two concrete classes, `Customer` and
`BankAccount`.  Python objects become Lean structures; the mutating
methods become pure functions that return the updated structure;
methods that `raise ValueError(msg)` become functions into
`Except String _`, carrying the exact message string of the source.
The two process-wide class counters (`Customer.__customer_counter`,
`BankAccount.__account_counter`) are threaded explicitly: a
constructor takes the current counter value and returns the new one,
exactly mirroring `counter += 1; id = counter` in the source.
Python integers are unbounded, so amounts and balances are `Int`.
-/

namespace BankSystem

/-- State of a `Customer` object: the fields written by
`Customer.__init__` in `src/main.py` (lines 72-84). -/
structure Customer where
  name : String
  email : String
  customer_id : Nat
deriving DecidableEq

/-- `Customer.__init__(name, email)` (src/main.py lines 72-84):
increments the process-wide customer counter and stores name, email
and the fresh counter value as `customer_id`.  The counter is passed
and returned explicitly. -/
def Customer.init (name email : String) (counter : Nat) : Customer × Nat :=
  let counter2 := counter + 1
  ({ name := name, email := email, customer_id := counter2 }, counter2)

/-- `Customer.get_info` (src/main.py line 92): the exact f-string of
the source. -/
def Customer.get_info (c : Customer) : String :=
  "Customer: " ++ c.name ++ " \nEmail: " ++ c.email ++ " \nCustomer ID: "
    ++ toString c.customer_id

/-- The `email` property setter (src/main.py lines 103-110): replaces
the stored email with no validation. -/
def Customer.email_set (c : Customer) (new_email : String) : Customer :=
  { c with email := new_email }

/-- State of a `BankAccount` object: the fields written by
`BankAccount.__init__` in `src/main.py` (lines 120-132). -/
structure BankAccount where
  owner : Customer
  balance : Int
  account_number : Nat
  account_initiation : Bool
deriving DecidableEq

/-- `BankAccount.__init__(owner)` (src/main.py lines 120-132):
increments the process-wide account counter, stores the owner,
sets `balance = 0`, `account_number` to the fresh counter value and
`account_initiation = True`.  The account counter is separate from the
customer counter; it is passed and returned explicitly. -/
def BankAccount.init (owner : Customer) (counter : Nat) : BankAccount × Nat :=
  let counter2 := counter + 1
  ({ owner := owner, balance := 0, account_number := counter2,
     account_initiation := true }, counter2)

/-- `BankAccount.top_up` (src/main.py lines 134-139): raises
`ValueError` for `value <= 0`; otherwise adds to the balance, clears
`__account_initiation` and returns the confirmation string. -/
def BankAccount.top_up (acc : BankAccount) (value : Int) :
    Except String (String × BankAccount) :=
  if value ≤ 0 then
    Except.error "Top ups should be positive amount."
  else
    let b := acc.balance + value
    Except.ok ("You have topped up " ++ toString value ++ " USD. Current balance: "
        ++ toString b ++ " USD",
      { acc with balance := b, account_initiation := false })

/-- `BankAccount.withdraw` (src/main.py lines 141-145): raises
`ValueError` when `self.__balance < value`; otherwise subtracts from
the balance and returns the confirmation string.  Note the source does
NOT touch `__account_initiation` here and does not check the sign of
`value`. -/
def BankAccount.withdraw (acc : BankAccount) (value : Int) :
    Except String (String × BankAccount) :=
  if acc.balance < value then
    Except.error "Insufficient balance."
  else
    let b := acc.balance - value
    Except.ok ("You have withdrawn " ++ toString value ++ " USD. Remaining balance: "
        ++ toString b ++ " USD",
      { acc with balance := b })

/-- `BankAccount.get_account_number` (src/main.py lines 147-148). -/
def BankAccount.get_account_number (acc : BankAccount) : String :=
  "Account number: " ++ toString acc.account_number

/-- `BankAccount.get_account_owner_info` (src/main.py lines 150-151):
delegates to the owner's `get_info`. -/
def BankAccount.get_account_owner_info (acc : BankAccount) : String :=
  acc.owner.get_info

/-- The `balance` property setter (src/main.py lines 157-163): raises
`ValueError` for `value <= 0` FIRST (unconditionally, whatever the
flag); then, only while `__account_initiation` is true, stores the
value and clears the flag; with the flag already false a positive
value is silently ignored. -/
def BankAccount.set_balance (acc : BankAccount) (value : Int) :
    Except String BankAccount :=
  if value ≤ 0 then
    Except.error "Balance should be above 0."
  else if acc.account_initiation then
    Except.ok { acc with balance := value, account_initiation := false }
  else
    Except.ok acc

/-- One mutating operation on an account, for reasoning about
arbitrary call sequences. -/
inductive Op where
  | topUp (value : Int)
  | withdraw (value : Int)
  | setBalance (value : Int)
deriving DecidableEq

/-- The account state after one method call: on a raised error the
Python object keeps its previous state (every `raise` in the source
happens before any field write), so `apply` returns the account
unchanged there. -/
def BankAccount.apply (acc : BankAccount) : Op → BankAccount
  | Op.topUp v =>
    match acc.top_up v with
    | Except.ok (_, acc2) => acc2
    | Except.error _ => acc
  | Op.withdraw v =>
    match acc.withdraw v with
    | Except.ok (_, acc2) => acc2
    | Except.error _ => acc
  | Op.setBalance v =>
    match acc.set_balance v with
    | Except.ok acc2 => acc2
    | Except.error _ => acc

/-- The account state after a whole sequence of method calls. -/
def BankAccount.run (acc : BankAccount) (ops : List Op) : BankAccount :=
  ops.foldl BankAccount.apply acc

/-- A sequence of `Customer(...)` constructions starting from a given
counter value, as performed by repeated `Customer.__init__`. -/
def createCustomers (counter : Nat) : List (String × String) → List Customer
  | [] => []
  | (n, e) :: rest =>
    let p := Customer.init n e counter
    p.1 :: createCustomers p.2 rest

/-- A sequence of `BankAccount(owner)` constructions starting from a
given counter value, as performed by repeated `BankAccount.__init__`. -/
def createAccounts (counter : Nat) : List Customer → List BankAccount
  | [] => []
  | ow :: rest =>
    let p := BankAccount.init ow counter
    p.1 :: createAccounts p.2 rest

/-- The first customer built by the demo driver `main`
(src/main.py line 170), with the id the first construction assigns. -/
def demoCustomer : Customer :=
  (Customer.init "Davide Blane" "dave@mail.com" 0).1

/-- The first account built by the demo driver `main`
(src/main.py line 172). -/
def demoAccount : BankAccount :=
  (BankAccount.init demoCustomer 0).1

/-- `demoAccount` after its one-time balance assignment to 5. -/
def demoAccount1 : BankAccount :=
  { demoAccount with balance := 5, account_initiation := false }

example : demoAccount.balance = 0 := rfl
example : demoAccount.set_balance 5 = Except.ok demoAccount1 := rfl
example : demoAccount1.set_balance 0 = Except.error "Balance should be above 0." := rfl
example : (demoAccount.apply (Op.topUp 0)) = demoAccount := rfl
example : demoAccount.withdraw 0 =
    Except.ok ("You have withdrawn 0 USD. Remaining balance: 0 USD", demoAccount) := rfl
example : (createCustomers 0 [("a", "b"), ("c", "d")]).map Customer.customer_id = [1, 2] := rfl

/-- Claim C3: `withdraw(a)` fails with `InsufficientFunds` iff
`a > balance`, leaving the account unchanged on failure; for every
`a ≤ balance` (including zero and negative `a`) it succeeds, decreases
the balance by exactly `a`, and returns the confirmation message
carrying the withdrawn amount and the remaining balance. -/
theorem C3_withdraw_fails_iff (acc : BankAccount) (a : Int) :
    (acc.balance < a →
      acc.withdraw a = Except.error "Insufficient balance." ∧
        acc.apply (Op.withdraw a) = acc) ∧
    (a ≤ acc.balance →
      acc.withdraw a =
        Except.ok ("You have withdrawn " ++ toString a ++ " USD. Remaining balance: "
            ++ toString (acc.balance - a) ++ " USD",
          { acc with balance := acc.balance - a })) := by
  constructor
  · intro h
    exact ⟨by simp [BankAccount.withdraw, h],
      by simp [BankAccount.apply, BankAccount.withdraw, h]⟩
  · intro h
    simp [BankAccount.withdraw, not_lt.mpr h]

theorem C3_witness :
    demoAccount.withdraw 1 = Except.error "Insufficient balance." ∧
    demoAccount.withdraw 0 =
      Except.ok ("You have withdrawn " ++ toString (0 : Int) ++ " USD. Remaining balance: "
          ++ toString (demoAccount.balance - 0) ++ " USD",
        { demoAccount with balance := demoAccount.balance - 0 }) :=
  ⟨((C3_withdraw_fails_iff demoAccount 1).1 (by decide)).1,
   (C3_withdraw_fails_iff demoAccount 0).2 (by decide)⟩

/-- Claim C4: `topUp(a)` fails with `InvalidAmount` when `a ≤ 0`,
leaving the account unchanged; when `a > 0` it adds exactly `a` to
the balance, clears the initiation flag, and returns the confirmation
message carrying the deposited amount and the resulting balance. -/
theorem C4_top_up_spec (acc : BankAccount) (a : Int) :
    (a ≤ 0 →
      acc.top_up a = Except.error "Top ups should be positive amount." ∧
        acc.apply (Op.topUp a) = acc) ∧
    (0 < a →
      acc.top_up a =
        Except.ok ("You have topped up " ++ toString a ++ " USD. Current balance: "
            ++ toString (acc.balance + a) ++ " USD",
          { acc with balance := acc.balance + a, account_initiation := false })) := by
  constructor
  · intro h
    exact ⟨by simp [BankAccount.top_up, h],
      by simp [BankAccount.apply, BankAccount.top_up, h]⟩
  · intro h
    simp [BankAccount.top_up, not_le.mpr h]

theorem C4_witness :
    demoAccount.top_up 0 = Except.error "Top ups should be positive amount." ∧
    demoAccount.top_up 5 =
      Except.ok ("You have topped up " ++ toString (5 : Int) ++ " USD. Current balance: "
          ++ toString (demoAccount.balance + 5) ++ " USD",
        { demoAccount with balance := demoAccount.balance + 5, account_initiation := false }) :=
  ⟨((C4_top_up_spec demoAccount 0).1 (by decide)).1,
   (C4_top_up_spec demoAccount 5).2 (by decide)⟩

/-- Claim C5: in every account state, `setBalance(v)` with `v ≤ 0`
fails with `InvalidAmount`; with `v > 0` while the initiation flag is
true it sets the balance to `v` and clears the flag. -/
theorem C5_set_balance_spec (acc : BankAccount) (v : Int) :
    (v ≤ 0 → acc.set_balance v = Except.error "Balance should be above 0.") ∧
    (0 < v → acc.account_initiation = true →
      acc.set_balance v =
        Except.ok { acc with balance := v, account_initiation := false }) := by
  constructor
  · intro h
    simp [BankAccount.set_balance, h]
  · intro h hi
    simp [BankAccount.set_balance, not_le.mpr h, hi]

theorem C5_witness :
    demoAccount.set_balance 0 = Except.error "Balance should be above 0." ∧
    demoAccount.set_balance 5 =
      Except.ok { demoAccount with balance := 5, account_initiation := false } :=
  ⟨(C5_set_balance_spec demoAccount 0).1 (by decide),
   (C5_set_balance_spec demoAccount 5).2 (by decide) rfl⟩

/-- Claim C1 counterexample: on the demo account, a first direct
assignment of 5 succeeds; the subsequent call `setBalance 0` is NOT a
silent no-op — the source checks `value <= 0` before the flag and
raises `ValueError("Balance should be above 0.")` even after the
account is locked. -/
theorem C1_counterexample :
    demoAccount.set_balance 5 = Except.ok demoAccount1 ∧
    demoAccount1.set_balance 0 = Except.error "Balance should be above 0." :=
  ⟨rfl, rfl⟩

/-- Claim C1 (amended): after the first successful direct assignment
(initiation flag false), a subsequent `setBalance v` with `v > 0` is a
silent no-op; with `v ≤ 0` it raises `InvalidAmount` (and in either
case the balance is unchanged). -/
theorem C1_amended_locked_behavior (acc : BankAccount) (v : Int)
    (h : acc.account_initiation = false) :
    (0 < v → acc.set_balance v = Except.ok acc) ∧
    (v ≤ 0 → acc.set_balance v = Except.error "Balance should be above 0.") ∧
    acc.apply (Op.setBalance v) = acc := by
  refine ⟨?_, ?_, ?_⟩
  · intro hv
    simp [BankAccount.set_balance, not_le.mpr hv, h]
  · intro hv
    simp [BankAccount.set_balance, hv]
  · by_cases hv : v ≤ 0
    · simp [BankAccount.apply, BankAccount.set_balance, hv]
    · simp [BankAccount.apply, BankAccount.set_balance, hv, h]

theorem C1_witness :
    demoAccount1.set_balance 7 = Except.ok demoAccount1 ∧
    demoAccount1.set_balance (-2) = Except.error "Balance should be above 0." :=
  ⟨(C1_amended_locked_behavior demoAccount1 7 rfl).1 (by decide),
   (C1_amended_locked_behavior demoAccount1 (-2) rfl).2.1 (by decide)⟩

/-- Claim C2 counterexample: on a fresh account (balance 0, initiation
flag true) the call `withdraw 0` SUCCEEDS and leaves the initiation
flag true — the source's `withdraw` never touches
`__account_initiation`, so a successful withdrawal does not make
`initialized` false. -/
theorem C2_counterexample :
    demoAccount.withdraw 0 =
      Except.ok ("You have withdrawn 0 USD. Remaining balance: 0 USD", demoAccount) ∧
    demoAccount.account_initiation = true :=
  ⟨rfl, rfl⟩

/-- Claim C2 (amended): after any successful top-up and after any
successful direct balance assignment the initiation flag is false;
a successful withdrawal leaves the flag exactly as it was. -/
theorem C2_amended_flag (acc acc2 : BankAccount) (v : Int) (msg : String) :
    (acc.top_up v = Except.ok (msg, acc2) → acc2.account_initiation = false) ∧
    (acc.set_balance v = Except.ok acc2 → acc2.account_initiation = false) ∧
    (acc.withdraw v = Except.ok (msg, acc2) →
      acc2.account_initiation = acc.account_initiation) := by
  refine ⟨?_, ?_, ?_⟩ <;> intro h
  · by_cases hv : v ≤ 0
    · simp [BankAccount.top_up, hv] at h
    · simp [BankAccount.top_up, hv] at h
      rw [← h.2]
  · by_cases hv : v ≤ 0
    · simp [BankAccount.set_balance, hv] at h
    · by_cases hi : acc.account_initiation
      · simp [BankAccount.set_balance, hv, hi] at h
        rw [← h]
      · simp [BankAccount.set_balance, hv, hi] at h
        simp at hi
        rw [← h, hi]
  · by_cases hv : acc.balance < v
    · simp [BankAccount.withdraw, hv] at h
    · simp [BankAccount.withdraw, hv] at h
      rw [← h.2]

theorem C2_witness :
    demoAccount1.account_initiation = false ∧
    demoAccount.account_initiation = demoAccount.account_initiation :=
  ⟨(C2_amended_flag demoAccount demoAccount1 5
      "You have topped up 5 USD. Current balance: 5 USD").1 rfl,
   (C2_amended_flag demoAccount demoAccount 0
      "You have withdrawn 0 USD. Remaining balance: 0 USD").2.2 rfl⟩

/-- Claim C8: `getOwnerInfo()` returns exactly the owner's
`getInfo()` string at call time; in particular, once the owner's email
is reassigned through the email setter, the owner-info string carries
the new email. -/
theorem C8_owner_info (acc : BankAccount) (new_email : String) :
    acc.get_account_owner_info = acc.owner.get_info ∧
    ({ acc with owner := acc.owner.email_set new_email }).get_account_owner_info
      = "Customer: " ++ acc.owner.name ++ " \nEmail: " ++ new_email
        ++ " \nCustomer ID: " ++ toString acc.owner.customer_id :=
  ⟨rfl, rfl⟩

/-- Claim C9: on any account with a non-negative balance (the
invariant of every reachable account state), `withdraw a` with `a < 0`
never raises, adds exactly `-a` to the balance (a strict increase),
and leaves the initiation flag unchanged. -/
theorem C9_negative_withdraw (acc : BankAccount) (a : Int)
    (ha : a < 0) (hb : 0 ≤ acc.balance) :
    acc.withdraw a =
      Except.ok ("You have withdrawn " ++ toString a ++ " USD. Remaining balance: "
          ++ toString (acc.balance - a) ++ " USD",
        { acc with balance := acc.balance - a }) ∧
    acc.balance < acc.balance - a ∧
    ({ acc with balance := acc.balance - a }).account_initiation
      = acc.account_initiation := by
  refine ⟨?_, by linarith, rfl⟩
  have h : ¬ acc.balance < a := by linarith
  simp [BankAccount.withdraw, h]

theorem C9_witness :
    demoAccount.withdraw (-3) =
      Except.ok ("You have withdrawn " ++ toString (-3 : Int) ++ " USD. Remaining balance: "
          ++ toString (demoAccount.balance - (-3)) ++ " USD",
        { demoAccount with balance := demoAccount.balance - (-3) }) ∧
    demoAccount.balance < demoAccount.balance - (-3) ∧
    ({ demoAccount with balance := demoAccount.balance - (-3) }).account_initiation
      = demoAccount.account_initiation :=
  C9_negative_withdraw demoAccount (-3) (by decide) (by decide)

/-- Claim C10: whenever `topUp`, `withdraw` or the balance setter
raises, the resulting account state is the account exactly as it was
(every field: owner, balance, account number, initiation flag) — in
the source each `raise` occurs before any field write. -/
theorem C10_error_leaves_state (acc : BankAccount) (v : Int) (e : String) :
    (acc.top_up v = Except.error e → acc.apply (Op.topUp v) = acc) ∧
    (acc.withdraw v = Except.error e → acc.apply (Op.withdraw v) = acc) ∧
    (acc.set_balance v = Except.error e → acc.apply (Op.setBalance v) = acc) := by
  refine ⟨?_, ?_, ?_⟩ <;> intro h <;> simp [BankAccount.apply, h]

theorem C10_witness :
    demoAccount.apply (Op.topUp 0) = demoAccount ∧
    demoAccount.apply (Op.withdraw 1) = demoAccount ∧
    demoAccount.apply (Op.setBalance (-1)) = demoAccount :=
  ⟨(C10_error_leaves_state demoAccount 0 "Top ups should be positive amount.").1 rfl,
   (C10_error_leaves_state demoAccount 1 "Insufficient balance.").2.1 rfl,
   (C10_error_leaves_state demoAccount (-1) "Balance should be above 0.").2.2 rfl⟩

theorem apply_balance_nonneg (acc : BankAccount) (op : Op)
    (h : 0 ≤ acc.balance) : 0 ≤ (acc.apply op).balance := by
  cases op with
  | topUp v =>
    by_cases hv : v ≤ 0
    · simpa [BankAccount.apply, BankAccount.top_up, hv]
    · simp only [BankAccount.apply, BankAccount.top_up, hv, if_neg hv]
      simp
      push_neg at hv
      linarith
  | withdraw v =>
    by_cases hv : acc.balance < v
    · simpa [BankAccount.apply, BankAccount.withdraw, hv]
    · simp [BankAccount.apply, BankAccount.withdraw, hv]
      push_neg at hv
      linarith
  | setBalance v =>
    by_cases hv : v ≤ 0
    · simpa [BankAccount.apply, BankAccount.set_balance, hv]
    · by_cases hi : acc.account_initiation
      · simp [BankAccount.apply, BankAccount.set_balance, hv, hi]
        linarith [not_le.mp hv]
      · simpa [BankAccount.apply, BankAccount.set_balance, hv, hi]

theorem run_balance_nonneg (ops : List Op) (acc : BankAccount)
    (h : 0 ≤ acc.balance) : 0 ≤ (acc.run ops).balance := by
  induction ops generalizing acc with
  | nil => simpa [BankAccount.run]
  | cons op rest ih =>
    simpa [BankAccount.run, List.foldl] using
      ih (acc.apply op) (apply_balance_nonneg acc op h)

/-- Claim C6: starting from construction (balance 0), no sequence of
`topUp`, `withdraw` and `setBalance` calls can make the balance
negative — the balance of every reachable account state is ≥ 0. -/
theorem C6_balance_never_negative (owner : Customer) (counter : Nat)
    (ops : List Op) :
    0 ≤ (((BankAccount.init owner counter).1).run ops).balance :=
  run_balance_nonneg ops _ (by simp [BankAccount.init])

theorem createCustomers_ids (counter : Nat) (specs : List (String × String)) :
    (createCustomers counter specs).map Customer.customer_id
      = List.range' (counter + 1) specs.length := by
  induction specs generalizing counter with
  | nil => simp [createCustomers]
  | cons sp rest ih =>
    cases sp with
    | mk n e =>
      simp [createCustomers, Customer.init, List.range'_succ, ih]

theorem createAccounts_numbers (counter : Nat) (owners : List Customer) :
    (createAccounts counter owners).map BankAccount.account_number
      = List.range' (counter + 1) owners.length := by
  induction owners generalizing counter with
  | nil => simp [createAccounts]
  | cons ow rest ih =>
    simp [createAccounts, BankAccount.init, List.range'_succ, ih]

/-- Claim C7: any sequence of `n` customer constructions from the
process start (counter 0) assigns the ids `1, 2, ..., n` in creation
order, and any sequence of `m` account constructions assigns the
account numbers `1, 2, ..., m`, from its own separate counter (the
two constructors read and bump distinct counters, so the customer list
never influences the account numbering). -/
theorem C7_counter_ids (specs : List (String × String)) (owners : List Customer) :
    (createCustomers 0 specs).map Customer.customer_id
      = List.range' 1 specs.length ∧
    (createAccounts 0 owners).map BankAccount.account_number
      = List.range' 1 owners.length :=
  ⟨createCustomers_ids 0 specs, createAccounts_numbers 0 owners⟩

end BankSystem
